import Mathlib

/-!
Verification of the video-compressor utility (`src/main.py`) against its
natural-language specification.

The program shells out to ffmpeg/ffprobe.  Its own logic — probing metadata
from the tool's `key=value` text output, a closed-form bitrate calculation,
the overwrite prompt, and the supervision loop that polls the output file's
size to drive a progress bar — is embedded shallowly below:

* Python numbers are idealised as exact rationals (`ℚ`); `float` rounding is
  out of scope.
* A Python exception (ZeroDivisionError, AttributeError, ValueError,
  NameError) is modelled as `none` / an explicit `crashed` outcome.
* The effectful run `compress_video` is modelled as a pure function of the
  ambient inputs it reads: the file system (an association list path ↦ size
  in bytes), the prompt answer, the sequence of output-file sizes sampled by
  the polling loop, the final output size, the child's exit code and the two
  wall-clock readings.
-/

/-! ## Bitrate calculator (`VideoCompressor.calculate_bitrate`, main.py lines 93-101)

```
required_file_size_bits = self.max_size_mb * 1024 * 1024 * 8
total_pixels = duration * resolution
bits_per_pixel = required_file_size_bits / total_pixels
required_bitrate_kbps = (bits_per_pixel * resolution) / 1024
```

`none` models the ZeroDivisionError Python raises when `total_pixels == 0`;
the method performs no other validation and `bit_depth` is never read. -/
def calculate_bitrate (max_size_mb duration resolution bit_depth : ℚ) : Option ℚ :=
  let required_file_size_bits := max_size_mb * 1024 * 1024 * 8
  let total_pixels := duration * resolution
  if total_pixels = 0 then none
  else
    let bits_per_pixel := required_file_size_bits / total_pixels
    some (bits_per_pixel * resolution / 1024)

/-- In `start_compression` (main.py lines 111-113) the probed width and height
are multiplied into a single `resolution` argument before calling
`calculate_bitrate`. -/
def start_compression_bitrate (max_size_mb duration : ℚ) (width height : ℕ)
    (bit_depth : ℚ) : Option ℚ :=
  calculate_bitrate max_size_mb duration ((width : ℚ) * (height : ℚ)) bit_depth

/-- Closed form: whenever neither divisor is zero, the computed bitrate is
exactly `max_size_mb * 8192 / duration`. -/
lemma calculate_bitrate_eq (b d r bd : ℚ) (hd : d ≠ 0) (hr : r ≠ 0) :
    calculate_bitrate b d r bd = some (b * 8192 / d) := by
  unfold calculate_bitrate
  rw [if_neg (mul_ne_zero hd hr)]
  congr 1
  field_simp
  ring

/-- C1: for every `duration > 0`, `size_budget_mb > 0` and `resolution > 0`
(and any bit depth), `calculate_bitrate` returns exactly
`size_budget_mb * 8192 / duration` kilobits per second. -/
theorem C1_bitrate_formula (b d r bd : ℚ) (hb : 0 < b) (hd : 0 < d) (hr : 0 < r) :
    calculate_bitrate b d r bd = some (b * 8192 / d) :=
  calculate_bitrate_eq b d r bd hd.ne' hr.ne'

/-- C1 witness: at `size_budget_mb = 10`, `duration = 60` (resolution
1920·1080 = 2073600) the result is `10 * 8192 / 60 = 4096/3 ≈ 1365.33` kbps. -/
theorem C1_bitrate_formula_witness :
    calculate_bitrate 10 60 2073600 8 = some (10 * 8192 / 60) ∧
      (10 * 8192 / 60 : ℚ) = 4096 / 3 :=
  ⟨C1_bitrate_formula 10 60 2073600 8 (by norm_num) (by norm_num) (by norm_num),
    by norm_num⟩

/-- C2 counterexample: the claim says the calculation fails with
`InvalidInputError` whenever `duration ≤ 0` or `size_budget_mb ≤ 0`.  The code
contains no such check: at `duration = -60 ≤ 0` (budget 10, resolution
2073600) it returns the value `-4096/3` instead of failing. -/
theorem C2_counterexample :
    calculate_bitrate 10 (-60) 2073600 8 = some (-(4096 / 3)) ∧ (-60 : ℚ) ≤ 0 := by
  constructor
  · rw [calculate_bitrate_eq 10 (-60) 2073600 8 (by norm_num) (by norm_num)]
    norm_num
  · norm_num

/-- C2 amended: `calculate_bitrate` performs no input validation and never
raises `InvalidInputError`.  For any `duration ≤ 0` or `size_budget_mb ≤ 0`
with both divisors nonzero it still returns the value
`size_budget_mb * 8192 / duration`; the only failure mode is the
ZeroDivisionError when `duration * resolution = 0`, which is not an
`InvalidInputError` and is not guarded anywhere before a process launch. -/
theorem C2_no_validation (b d r bd : ℚ) (hd : d ≠ 0) (hr : r ≠ 0)
    (hinvalid : b ≤ 0 ∨ d ≤ 0) :
    calculate_bitrate b d r bd = some (b * 8192 / d) :=
  calculate_bitrate_eq b d r bd hd hr

/-- C2 amended witness: at budget 0 (≤ 0) and duration 60 the calculation
returns `some 0` rather than failing. -/
theorem C2_no_validation_witness :
    calculate_bitrate 0 60 2073600 8 = some (0 * 8192 / 60) :=
  C2_no_validation 0 60 2073600 8 (by norm_num) (by norm_num) (Or.inl le_rfl)

/-- C3: the resolution argument has no effect — for fixed positive budget and
duration, any two positive resolutions (and any bit depths) give the same
result, which equals the simple form `size_budget_mb * 8192 / duration`. -/
theorem C3_resolution_independent (b d r₁ r₂ bd₁ bd₂ : ℚ) (hb : 0 < b)
    (hd : 0 < d) (hr₁ : 0 < r₁) (hr₂ : 0 < r₂) :
    calculate_bitrate b d r₁ bd₁ = calculate_bitrate b d r₂ bd₂ ∧
      calculate_bitrate b d r₁ bd₁ = some (b * 8192 / d) := by
  have h1 := calculate_bitrate_eq b d r₁ bd₁ hd.ne' hr₁.ne'
  have h2 := calculate_bitrate_eq b d r₂ bd₂ hd.ne' hr₂.ne'
  exact ⟨h1.trans h2.symm, h1⟩

/-- C3 witness: budget 10, duration 60, resolutions 2073600 and 100 agree. -/
theorem C3_resolution_independent_witness :
    calculate_bitrate 10 60 2073600 8 = calculate_bitrate 10 60 100 10 ∧
      calculate_bitrate 10 60 2073600 8 = some (10 * 8192 / 60) :=
  C3_resolution_independent 10 60 2073600 100 8 10 (by norm_num) (by norm_num)
    (by norm_num) (by norm_num)

/-- C9: the computed bitrate is strictly decreasing in duration and strictly
increasing in budget: with `0 < b`, `0 < d`, `0 < r`, `d < d2` and `b < b2`,
the value at `(b, d2)` is below the value at `(b, d)`, which is below the
value at `(b2, d)`. -/
theorem C9_bitrate_monotone (b b2 d d2 r bd : ℚ) (hb : 0 < b) (hd : 0 < d)
    (hr : 0 < r) (hdd : d < d2) (hbb : b < b2) :
    ∃ v vd vb,
      calculate_bitrate b d r bd = some v ∧
        calculate_bitrate b d2 r bd = some vd ∧
          calculate_bitrate b2 d r bd = some vb ∧ vd < v ∧ v < vb := by
  have hd2 : 0 < d2 := hd.trans hdd
  refine ⟨b * 8192 / d, b * 8192 / d2, b2 * 8192 / d,
    calculate_bitrate_eq b d r bd hd.ne' hr.ne',
    calculate_bitrate_eq b d2 r bd hd2.ne' hr.ne',
    calculate_bitrate_eq b2 d r bd hd.ne' hr.ne', ?_, ?_⟩
  · rw [div_lt_div_iff hd2 hd]
    nlinarith
  · rw [div_lt_div_iff hd hd]
    nlinarith

/-- C9 witness: at budget 10, durations 60 < 120 and budgets 10 < 20. -/
theorem C9_bitrate_monotone_witness :
    ∃ v vd vb,
      calculate_bitrate 10 60 2073600 8 = some v ∧
        calculate_bitrate 10 120 2073600 8 = some vd ∧
          calculate_bitrate 20 60 2073600 8 = some vb ∧ vd < v ∧ v < vb :=
  C9_bitrate_monotone 10 20 60 120 2073600 8 (by norm_num) (by norm_num)
    (by norm_num) (by norm_num) (by norm_num)

/-- C10: the calculation is total exactly when `duration ≠ 0`, `width ≠ 0` and
`height ≠ 0`: if the duration is zero or either probed dimension is zero (the
data model permits width/height 0) the division by `total_pixels = duration *
width * height` raises ZeroDivisionError (`none`); otherwise a value is
returned. -/
theorem C10_division_totality (b d : ℚ) (w h : ℕ) (bd : ℚ) :
    (d = 0 ∨ w = 0 ∨ h = 0 → start_compression_bitrate b d w h bd = none) ∧
      (d ≠ 0 → w ≠ 0 → h ≠ 0 →
        ∃ v, start_compression_bitrate b d w h bd = some v) := by
  constructor
  · intro hcase
    unfold start_compression_bitrate calculate_bitrate
    rw [if_pos]
    rcases hcase with h0 | h0 | h0 <;> simp [h0]
  · intro hd hw hh
    refine ⟨b * 8192 / d, ?_⟩
    unfold start_compression_bitrate
    exact calculate_bitrate_eq b d _ bd hd
      (mul_ne_zero (Nat.cast_ne_zero.mpr hw) (Nat.cast_ne_zero.mpr hh))

/-- C10 witness: duration 0 (or width 0) gives `none`; nonzero inputs give a
value. -/
theorem C10_division_totality_witness :
    start_compression_bitrate 10 0 1920 1080 8 = none ∧
      ∃ v, start_compression_bitrate 10 60 1920 1080 8 = some v :=
  ⟨(C10_division_totality 10 0 1920 1080 8).1 (Or.inl rfl),
    (C10_division_totality 10 60 1920 1080 8).2 (by norm_num) (by norm_num)
      (by norm_num)⟩

/-! ## Probe (`VideoCompressor.get_video_info`, main.py lines 72-91)

The method runs ffprobe and applies four regexes to its stdout:

```
duration_regex  = re.compile(r"duration=([\d\.]+)")
width_regex     = re.compile(r"width=(\d+)")
height_regex    = re.compile(r"height=(\d+)")
bit_depth_regex = re.compile(r"bits_per_raw_sample=(\d+)")
duration = float(duration_regex.search(output).group(1))
width    = int(width_regex.search(output).group(1))
height   = int(height_regex.search(output).group(1))
bit_depth_search = bit_depth_regex.search(output)
bit_depth = int(bit_depth_search.group(1)) if bit_depth_search else 8
```

Each regex is a literal key followed by a character class repeated greedily,
so `re.search` returns the token after the leftmost occurrence of the key
that is followed by at least one class character.  A failed search followed
by `.group(1)` raises AttributeError, and `float` of a digits-and-dots token
with two dots (or no digit) raises ValueError; both are modelled as `none`. -/

/-- `int(...)` on a digit string (Python `int`); also the digit accumulator
for `float`. -/
def digitsToNat (s : List Char) : ℕ :=
  s.foldl (fun n c => 10 * n + (c.toNat - 48)) 0

/-- The character class `[\d\.]` of the duration regex. -/
def numCls (c : Char) : Bool := c.isDigit || c == '.'

/-- Leftmost `re.search` for pattern `key([cls]+)`: the first position where
the literal `key` is followed by at least one `cls` character; the capture is
the maximal (greedy) run of `cls` characters after the key. -/
def searchKeyNum (key : List Char) (cls : Char → Bool) : List Char → Option (List Char)
  | [] => none
  | c :: rest =>
    if key.isPrefixOf (c :: rest) then
      let tok := ((c :: rest).drop key.length).takeWhile cls
      if tok.isEmpty then searchKeyNum key cls rest else some tok
    else searchKeyNum key cls rest

/-- Python `float(...)` on a token drawn from `[\d.]+`: at most one dot and
at least one digit, value read in decimal (exact-rational idealisation of the
binary float). -/
def pyFloat (s : List Char) : Option ℚ :=
  let intPart := s.takeWhile (fun c => c != '.')
  let rest := s.dropWhile (fun c => c != '.')
  let frac := rest.drop 1
  if rest.isEmpty then
    if intPart.isEmpty then none else some (digitsToNat intPart)
  else if frac.any (fun c => c == '.') then none
  else if intPart.isEmpty && frac.isEmpty then none
  else some ((digitsToNat intPart : ℚ) + (digitsToNat frac : ℚ) / (10 : ℚ) ^ frac.length)

/-- The literal part of `duration_regex`. -/
def durKey : List Char := "duration=".toList

/-- The literal part of `width_regex`. -/
def widthKey : List Char := "width=".toList

/-- The literal part of `height_regex`. -/
def heightKey : List Char := "height=".toList

/-- The literal part of `bit_depth_regex`. -/
def bitsKey : List Char := "bits_per_raw_sample=".toList

/-- `get_video_info` applied to the probe tool's stdout, returning
`(duration, width, height, bit_depth)`; `none` models an uncaught
AttributeError/ValueError.  Duration is searched and parsed first, then
width, then height; only `bits_per_raw_sample` is optional (default 8). -/
def get_video_info (output : List Char) : Option (ℚ × ℕ × ℕ × ℕ) :=
  match searchKeyNum durKey numCls output with
  | none => none
  | some dtok =>
    match pyFloat dtok with
    | none => none
    | some duration =>
      match searchKeyNum widthKey Char.isDigit output with
      | none => none
      | some wtok =>
        match searchKeyNum heightKey Char.isDigit output with
        | none => none
        | some htok =>
          let bit_depth :=
            match searchKeyNum bitsKey Char.isDigit output with
            | some btok => digitsToNat btok
            | none => 8
          some (duration, digitsToNat wtok, digitsToNat htok, bit_depth)

/-- C4 counterexample: on probe output that has a duration and a height but
no `width=` token, the claim says the probe still succeeds with the default
width 0; the code instead raises AttributeError (`none`) because width and
height are mandatory. -/
theorem C4_counterexample :
    get_video_info "duration=60.0 height=1080".toList = none := by decide

/-- C4 amended: if `duration` is absent or non-numeric the probe fails; if
`width` or `height` is absent the probe likewise fails (they are not given
the defaults 0/0); only `bits_per_raw_sample` is optional, defaulting the bit
depth to 8 when all three mandatory fields are present and parse. -/
theorem C4_probe_fields (out : List Char) :
    (searchKeyNum durKey numCls out = none → get_video_info out = none) ∧
      (∀ t, searchKeyNum durKey numCls out = some t → pyFloat t = none →
        get_video_info out = none) ∧
        (searchKeyNum widthKey Char.isDigit out = none → get_video_info out = none) ∧
          (searchKeyNum heightKey Char.isDigit out = none → get_video_info out = none) ∧
            (∀ dt d wt ht, searchKeyNum durKey numCls out = some dt →
              pyFloat dt = some d →
              searchKeyNum widthKey Char.isDigit out = some wt →
              searchKeyNum heightKey Char.isDigit out = some ht →
              searchKeyNum bitsKey Char.isDigit out = none →
              get_video_info out = some (d, digitsToNat wt, digitsToNat ht, 8)) := by
  refine ⟨?_, ?_, ?_, ?_, ?_⟩
  · intro h
    simp [get_video_info, h]
  · intro t ht hp
    simp [get_video_info, ht, hp]
  · intro h
    cases hdt : searchKeyNum durKey numCls out with
    | none => simp [get_video_info, hdt]
    | some dtok =>
      cases hpf : pyFloat dtok with
      | none => simp [get_video_info, hdt, hpf]
      | some d => simp [get_video_info, hdt, hpf, h]
  · intro h
    cases hdt : searchKeyNum durKey numCls out with
    | none => simp [get_video_info, hdt]
    | some dtok =>
      cases hpf : pyFloat dtok with
      | none => simp [get_video_info, hdt, hpf]
      | some d =>
        cases hw : searchKeyNum widthKey Char.isDigit out with
        | none => simp [get_video_info, hdt, hpf, hw]
        | some wtok => simp [get_video_info, hdt, hpf, hw, h]
  · intro dt d wt ht h1 h2 h3 h4 h5
    simp [get_video_info, h1, h2, h3, h4, h5]

/-- C4 witness: on output carrying all three mandatory fields but no
`bits_per_raw_sample`, the probe succeeds with bit depth defaulted to 8
(duration 120.5 = 241/2). -/
theorem C4_probe_fields_witness :
    get_video_info "duration=120.5 width=1920 height=1080".toList =
      some (241 / 2, 1920, 1080, 8) := by
  have hpf : pyFloat "120.5".toList = some (241 / 2) := by
    have h1 : List.takeWhile (fun c => c != '.') "120.5".toList = "120".toList := by
      decide
    have h2 : List.dropWhile (fun c => c != '.') "120.5".toList = '.' :: "5".toList := by
      decide
    simp only [pyFloat, h1, h2, List.drop_succ_cons, List.drop_zero]
    norm_num +decide [(by decide : digitsToNat ['1', '2', '0'] = 120),
      (by decide : digitsToNat ['5'] = 5)]
  have h := (C4_probe_fields "duration=120.5 width=1920 height=1080".toList).2.2.2.2
    "120.5".toList (241 / 2) "1920".toList "1080".toList
    (by decide) hpf (by decide) (by decide) (by decide)
  rw [h]
  simp [(by decide : digitsToNat ['1', '9', '2', '0'] = 1920),
    (by decide : digitsToNat ['1', '0', '8', '0'] = 1080)]

/-! ## Supervisor (`VideoCompressor.compress_video`, main.py lines 132-160)

```
if os.path.exists(self.output_file):
    overwrite = input(...)
    if overwrite.lower() != 'y':
        print("Operation cancelled.")
        return
    else:
        os.remove(self.output_file)
        start = datetime.datetime.now()
process = self.start_compression()
with tqdm(total=self.max_size_mb, unit='MB', ascii="...") as pbar:
    while process.poll() is None:
        if os.path.exists(self.output_file):
            output_file_size_mb = round(os.path.getsize(self.output_file)/1024/1024, 4)
            pbar.update(output_file_size_mb - pbar.n)
        time.sleep(0.25)
    pbar.update(output_file_size_mb)
process.communicate()
logging.info(... round(float((datetime.datetime.now() - start).total_seconds()), 2) ...)
print(...)
if self.remove_original:
    os.remove(self.input_file)
```

The run is modelled as a pure function of the inputs it reads: the file
system (association list path ↦ size in bytes), the prompt answer, the
sequence of output-file sizes the polling loop samples (one entry per tick,
`none` = file absent), the final output size the encoder leaves behind, the
child's exit code and the wall-clock readings `t0` (taken at
`start = datetime.datetime.now()`) and `t1` (taken at the completion report).
`start` is a Python local assigned ONLY in the overwrite-confirmed branch;
`output_file_size_mb` is assigned only inside the loop's `if exists` — using
either while unassigned raises NameError, modelled by `RunOutcome.crashed`.
The child's exit code is an input the code never consults. -/

/-- `os.path.exists`/`os.path.getsize`: look a path up in the file system. -/
def lookupF (fs : List (String × ℕ)) (p : String) : Option ℕ :=
  (fs.find? (fun e => e.1 == p)).map Prod.snd

/-- `os.remove`: drop a path from the file system. -/
def removeF (p : String) (fs : List (String × ℕ)) : List (String × ℕ) :=
  fs.filter (fun e => e.1 != p)

/-- The encoder creating/overwriting the output file with `n` bytes. -/
def setF (p : String) (n : ℕ) (fs : List (String × ℕ)) : List (String × ℕ) :=
  (p, n) :: removeF p fs

/-- Python's banker's rounding (`round`) to an integer, on the exact
rational. -/
def roundHalfEven (q : ℚ) : ℤ :=
  let f := ⌊q⌋
  let r := q - f
  if r < 1 / 2 then f
  else if 1 / 2 < r then f + 1
  else if f % 2 = 0 then f else f + 1

/-- Python `round(q, 4)`. -/
def round4 (q : ℚ) : ℚ := (roundHalfEven (q * 10000) : ℚ) / 10000

/-- Python `round(q, 2)`. -/
def round2 (q : ℚ) : ℚ := (roundHalfEven (q * 100) : ℚ) / 100

/-- `round(os.path.getsize(...)/1024/1024, 4)`: one sampled progress value in
MB. -/
def sampleMB (bytes : ℕ) : ℚ := round4 ((bytes : ℚ) / 1024 / 1024)

/-- One tick of the polling loop.  State: (`pbar.n`, last value assigned to
`output_file_size_mb` if any).  When the output file exists with `b` bytes,
`pbar.update(output_file_size_mb - pbar.n)` makes `pbar.n` the sampled size —
with no clamping to `max_size_mb`; when it does not exist the state is
unchanged. -/
def pollStep (st : ℚ × Option ℚ) (s : Option ℕ) : ℚ × Option ℚ :=
  match s with
  | some b => (st.1 + (sampleMB b - st.1), some (sampleMB b))
  | none => st

/-- The whole `while process.poll() is None` loop, from `pbar.n = 0` and
`output_file_size_mb` unassigned. -/
def pollLoop (sizes : List (Option ℕ)) : ℚ × Option ℚ :=
  sizes.foldl pollStep (0, none)

/-- The successive values of `pbar.n` displayed during the loop. -/
def pbarTrace (sizes : List (Option ℕ)) : List ℚ :=
  (sizes.scanl pollStep (0, none)).map Prod.fst

/-- Python `str.lower()` (ASCII idealisation) applied to the prompt answer. -/
def pyLower (s : String) : String := String.mk (s.data.map Char.toLower)

/-- A NameError aborting the run: `output_file_size_mb` unassigned at the
final `pbar.update` (no poll tick ever saw the file), or `start` unassigned
at the completion report (the output path did not pre-exist). -/
inductive PyError
  | nameErrorSize
  | nameErrorStart
deriving DecidableEq

/-- How a modelled `compress_video` run ends, with the final file system. -/
inductive RunOutcome
  | cancelled (fs : List (String × ℕ))
  | crashed (err : PyError) (fs : List (String × ℕ))
  | finished (fs : List (String × ℕ)) (pbarN : ℚ) (elapsed : ℚ)
deriving DecidableEq

/-- The file system after the encoder child has run: the final output size
(if the encoder created the file) written over `fs`. -/
def fsAfterEncode (output_file : String) (finalSize : Option ℕ)
    (fs : List (String × ℕ)) : List (String × ℕ) :=
  match finalSize with
  | some b => setF output_file b fs
  | none => fs

/-- `compress_video` as a function of everything the run reads.  `exitCode`
is the child's exit status; the code never consults it.  `max_size_mb` only
feeds `tqdm(total=...)`, never the update values. -/
def compress_video (fs0 : List (String × ℕ)) (input_file output_file : String)
    (max_size_mb : ℤ) (remove_original : Bool) (answer : String)
    (sizes : List (Option ℕ)) (finalSize : Option ℕ) (exitCode : ℤ)
    (t0 t1 : ℚ) : RunOutcome :=
  let preExists := (lookupF fs0 output_file).isSome
  if preExists && (pyLower answer != "y") then RunOutcome.cancelled fs0
  else
    let start : Option ℚ := if preExists then some t0 else none
    let fs1 := if preExists then removeF output_file fs0 else fs0
    let fs2 := fsAfterEncode output_file finalSize fs1
    let st := pollLoop sizes
    match st.2 with
    | none => RunOutcome.crashed PyError.nameErrorSize fs2
    | some m =>
      match start with
      | none => RunOutcome.crashed PyError.nameErrorStart fs2
      | some s =>
        RunOutcome.finished
          (if remove_original then removeF input_file fs2 else fs2)
          (st.1 + m) (round2 (t1 - s))

/-- The loop invariant: whenever `output_file_size_mb` has been assigned,
`pbar.n` equals it (the bar tracks the last sample exactly, unclamped). -/
lemma pollLoop_fst_eq_last (sizes : List (Option ℕ)) :
    ∀ st : ℚ × Option ℚ, (∀ x, st.2 = some x → st.1 = x) →
      ∀ x, (sizes.foldl pollStep st).2 = some x → (sizes.foldl pollStep st).1 = x := by
  induction sizes with
  | nil => exact fun st h x hx => h x hx
  | cons a t ih =>
    intro st h x hx
    simp only [List.foldl_cons] at hx ⊢
    refine ih (pollStep st a) ?_ x hx
    intro y hy
    cases a with
    | none => exact h y hy
    | some b =>
      simp only [pollStep] at hy ⊢
      obtain rfl : sampleMB b = y := Option.some.inj hy
      ring

/-- Reduction of a run that passes the overwrite prompt (output pre-exists,
answer lowers to `y`) and whose polling loop assigned `output_file_size_mb`
at least once: it reaches the completion report. -/
lemma compress_video_finished (fs0 : List (String × ℕ)) (inf outf : String)
    (msz : ℤ) (ro : Bool) (ans : String) (sizes : List (Option ℕ))
    (fin : Option ℕ) (ec : ℤ) (t0 t1 : ℚ) (m : ℚ)
    (hex : (lookupF fs0 outf).isSome = true) (hans : pyLower ans = "y")
    (hlast : (pollLoop sizes).2 = some m) :
    compress_video fs0 inf outf msz ro ans sizes fin ec t0 t1 =
      RunOutcome.finished
        (if ro then removeF inf (fsAfterEncode outf fin (removeF outf fs0))
         else fsAfterEncode outf fin (removeF outf fs0))
        ((pollLoop sizes).1 + m) (round2 (t1 - t0)) := by
  unfold compress_video
  rw [hex, hans]
  simp only [bne_self_eq_false, Bool.and_false, Bool.false_eq_true, if_false,
    if_true, hlast]

/-- C5: when the output path pre-exists and the prompt answer does not lower
to `"y"`, the run returns early as cancelled: no encoder process is launched
and the file system — in particular the pre-existing output file — is
exactly the initial one. -/
theorem C5_decline_no_launch (fs0 : List (String × ℕ)) (inf outf : String)
    (msz : ℤ) (ro : Bool) (ans : String) (sizes : List (Option ℕ))
    (fin : Option ℕ) (ec : ℤ) (t0 t1 : ℚ)
    (hex : (lookupF fs0 outf).isSome = true) (hans : pyLower ans ≠ "y") :
    compress_video fs0 inf outf msz ro ans sizes fin ec t0 t1 =
      RunOutcome.cancelled fs0 := by
  unfold compress_video
  rw [hex, if_pos]
  simp [hans]

/-- C5 witness: output `out.mp4` (5 bytes) pre-exists, the user answers `N`;
the run is cancelled with the file system untouched. -/
theorem C5_decline_no_launch_witness :
    compress_video [("out.mp4", 5)] "in.mp4" "out.mp4" 10 false "N"
        [some 1048576] (some 1048576) 0 0 1 =
      RunOutcome.cancelled [("out.mp4", 5)] :=
  C5_decline_no_launch [("out.mp4", 5)] "in.mp4" "out.mp4" 10 false "N"
    [some 1048576] (some 1048576) 0 0 1 (by decide) (by decide)

/-- Looking up a path just removed from the file system finds nothing. -/
lemma lookupF_removeF (p : String) (fs : List (String × ℕ)) :
    lookupF (removeF p fs) p = none := by
  have hfind : List.find? (fun e => e.1 == p)
      (List.filter (fun e => e.1 != p) fs) = none := by
    rw [List.find?_eq_none]
    intro x hx
    have hmem := (List.mem_filter.mp hx).2
    simp only [bne_iff_ne, ne_eq] at hmem
    simp [hmem]
  simp [lookupF, removeF, hfind]

/-- C6 counterexample: budget `max_size_mb = 1`; the single poll tick samples
a 2 MiB output file, so the bar displays 2 > 1 during the loop
(`pbarTrace = [0, 2]`), and the final `pbar.update(output_file_size_mb)` adds
the stale sample again, ending at 4 > 1.  The displayed value exceeds the
size budget; nothing clamps it. -/
theorem C6_counterexample :
    compress_video [("out.mp4", 5)] "in.mp4" "out.mp4" 1 false "y"
        [some 2097152] (some 2097152) 0 0 10 =
      RunOutcome.finished [("out.mp4", 2097152)] 4 10 ∧
      pbarTrace [some 2097152] = [0, 2] ∧ (1 : ℚ) < 2 ∧ (1 : ℚ) < 4 := by
  have hm : sampleMB 2097152 = 2 := by norm_num [sampleMB, round4, roundHalfEven]
  have hlast : (pollLoop [some 2097152]).2 = some 2 := by
    simp [pollLoop, pollStep, hm]
  have h1 : (pollLoop [some 2097152]).1 = 2 := by
    simp [pollLoop, pollStep, hm]
  have h := compress_video_finished [("out.mp4", 5)] "in.mp4" "out.mp4" 1 false
    "y" [some 2097152] (some 2097152) 0 0 10 2 (by decide) (by decide) hlast
  rw [h1] at h
  refine ⟨?_, ?_, by norm_num, by norm_num⟩
  · rw [h]
    have e1 : (if false then
          removeF "in.mp4"
            (fsAfterEncode "out.mp4" (some 2097152) (removeF "out.mp4" [("out.mp4", 5)]))
        else fsAfterEncode "out.mp4" (some 2097152) (removeF "out.mp4" [("out.mp4", 5)])) =
        [("out.mp4", 2097152)] := by decide
    rw [e1]
    norm_num [round2, roundHalfEven]
  · norm_num [pbarTrace, List.scanl, pollStep, hm]

/-- C6 amended: the progress value is not clamped to the budget.  During the
loop `pbar.n` equals the last sampled output size exactly — larger than
`max_size_mb` whenever the sample is — and the final
`pbar.update(output_file_size_mb)` adds the last sample a second time, so the
run ends reporting twice the last sample. -/
theorem C6_progress_unclamped (fs0 : List (String × ℕ)) (inf outf : String)
    (msz : ℤ) (ro : Bool) (ans : String) (sizes : List (Option ℕ))
    (fin : Option ℕ) (ec : ℤ) (t0 t1 : ℚ) (m : ℚ)
    (hex : (lookupF fs0 outf).isSome = true) (hans : pyLower ans = "y")
    (hlast : (pollLoop sizes).2 = some m) :
    (pollLoop sizes).1 = m ∧
      compress_video fs0 inf outf msz ro ans sizes fin ec t0 t1 =
        RunOutcome.finished
          (if ro then removeF inf (fsAfterEncode outf fin (removeF outf fs0))
           else fsAfterEncode outf fin (removeF outf fs0))
          (m + m) (round2 (t1 - t0)) := by
  have h1 : (pollLoop sizes).1 = m :=
    pollLoop_fst_eq_last sizes (0, none) (fun x hx => by exact nomatch hx) m hlast
  refine ⟨h1, ?_⟩
  have h := compress_video_finished fs0 inf outf msz ro ans sizes fin ec t0 t1 m
    hex hans hlast
  rwa [h1] at h

/-- C6 amended witness: one tick sampling 2 MiB with budget 1; the loop value
is 2 and the final report is 2 + 2. -/
theorem C6_progress_unclamped_witness :
    (pollLoop [some 2097152]).1 = 2 ∧
      compress_video [("o", 3)] "i" "o" 1 false "y" [some 2097152]
          (some 2097152) 0 0 10 =
        RunOutcome.finished
          (if false then removeF "i" (fsAfterEncode "o" (some 2097152) (removeF "o" [("o", 3)]))
           else fsAfterEncode "o" (some 2097152) (removeF "o" [("o", 3)]))
          (2 + 2) (round2 (10 - 0)) := by
  have hm : sampleMB 2097152 = 2 := by norm_num [sampleMB, round4, roundHalfEven]
  exact C6_progress_unclamped [("o", 3)] "i" "o" 1 false "y" [some 2097152]
    (some 2097152) 0 0 10 2 (by decide) (by decide) (by simp [pollLoop, pollStep, hm])

/-- C7 counterexample: `remove_original = True` and the child exits with the
failing code 1 (exit codes are never consulted); the run still deletes the
input file `in.mp4`, contradicting "deleted only if the child succeeded". -/
theorem C7_counterexample :
    compress_video [("out.mp4", 5), ("in.mp4", 9)] "in.mp4" "out.mp4" 10 true
        "y" [some 1048576] (some 1048576) 1 0 3 =
      RunOutcome.finished [("out.mp4", 1048576)] 2 3 ∧
      lookupF [("out.mp4", 1048576)] "in.mp4" = none ∧ (1 : ℤ) ≠ 0 := by
  have hm : sampleMB 1048576 = 1 := by norm_num [sampleMB, round4, roundHalfEven]
  have hlast : (pollLoop [some 1048576]).2 = some 1 := by
    simp [pollLoop, pollStep, hm]
  have h1 : (pollLoop [some 1048576]).1 = 1 := by
    simp [pollLoop, pollStep, hm]
  have h := compress_video_finished [("out.mp4", 5), ("in.mp4", 9)] "in.mp4"
    "out.mp4" 10 true "y" [some 1048576] (some 1048576) 1 0 3 1
    (by decide) (by decide) hlast
  rw [h1] at h
  refine ⟨?_, by decide, by decide⟩
  rw [h]
  have e1 : (if true then
        removeF "in.mp4"
          (fsAfterEncode "out.mp4" (some 1048576)
            (removeF "out.mp4" [("out.mp4", 5), ("in.mp4", 9)]))
      else fsAfterEncode "out.mp4" (some 1048576)
        (removeF "out.mp4" [("out.mp4", 5), ("in.mp4", 9)])) =
      [("out.mp4", 1048576)] := by decide
  rw [e1]
  norm_num [round2, roundHalfEven]

/-- C7 amended: when `remove_original` is set, every run that reaches the
completion report deletes the input file, whatever the child's exit code —
the code never distinguishes exit codes, so "only if the child succeeded" has
no counterpart in it. -/
theorem C7_remove_regardless (fs0 : List (String × ℕ)) (inf outf : String)
    (msz : ℤ) (ans : String) (sizes : List (Option ℕ)) (fin : Option ℕ)
    (ec : ℤ) (t0 t1 : ℚ) (m : ℚ)
    (hex : (lookupF fs0 outf).isSome = true) (hans : pyLower ans = "y")
    (hlast : (pollLoop sizes).2 = some m) :
    ∃ fs n e, compress_video fs0 inf outf msz true ans sizes fin ec t0 t1 =
        RunOutcome.finished fs n e ∧ lookupF fs inf = none := by
  refine ⟨removeF inf (fsAfterEncode outf fin (removeF outf fs0)),
    (pollLoop sizes).1 + m, round2 (t1 - t0), ?_, lookupF_removeF inf _⟩
  have h := compress_video_finished fs0 inf outf msz true ans sizes fin ec t0 t1
    m hex hans hlast
  simpa using h

/-- C7 amended witness: exit code 7 (a failure), `remove_original` set; the
input `i` is gone from the final file system. -/
theorem C7_remove_regardless_witness :
    ∃ fs n e, compress_video [("o", 1), ("i", 2)] "i" "o" 10 true "Y" [some 0]
        none 7 0 1 = RunOutcome.finished fs n e ∧ lookupF fs "i" = none := by
  have hm : sampleMB 0 = 0 := by norm_num [sampleMB, round4, roundHalfEven]
  exact C7_remove_regardless [("o", 1), ("i", 2)] "i" "o" 10 "Y" [some 0] none 7
    0 1 0 (by decide) (by decide) (by simp [pollLoop, pollStep, hm])

/-- C8 (code bug): on the common path where the output file does NOT
pre-exist, the local `start` is never assigned (it is set only inside the
overwrite-confirmed branch, main.py line 145), so the completion report
`(datetime.datetime.now() - start)` at line 157 raises NameError: the elapsed
time is not well-defined for such runs, although the child has already
exited. -/
theorem C8_fresh_run_crashes :
    compress_video [("in.mp4", 9)] "in.mp4" "out.mp4" 10 false "" [some 1048576]
        (some 1048576) 0 0 5 =
      RunOutcome.crashed PyError.nameErrorStart
        [("out.mp4", 1048576), ("in.mp4", 9)] := by decide
